import Mathlib

/-!
# Pulse API — shallow embedding and verification

A shallow embedding of the Pulse API backend (src/solution): the data model
(`dbmodels.py`), the authorization guard and token issuance (`auth.py`), and
the request handlers of `main.py`.  Database rows are Lean structures, tables
are lists kept in insertion order, and each handler is a pure function from
the database state (plus the already-validated request data) to a result and
a new database state.  Timestamps are `Int` seconds as in the Python code
(`int(datetime.datetime.now().timestamp())`).
-/

namespace Pulse

/-- A row of the `users` table (`dbmodels.py`, class `DBUser`).  `password`
stores the hash, `updated_at` the timestamp set on insert and on password
change. -/
structure DBUser where
  id : Nat
  login : String
  password : String
  email : String
  countryCode : String
  isPublic : Bool
  phone : Option String
  image : Option String
  updated_at : Int
deriving DecidableEq, Repr

/-- A row of the `countries` table (`dbmodels.py`, class `DBCountry`). -/
structure DBCountry where
  name : String
  alpha2 : String
  alpha3 : String
  region : String
deriving DecidableEq, Repr

/-- A row of the association table `friends` (`dbmodels.py`): the directed
edge who-added → added with its timestamp, unique per ordered pair
(constraint `_friends_uc` and the composite primary key). -/
structure FriendEdge where
  whoadded_id : Nat
  added_id : Nat
  added_at : Int
deriving DecidableEq, Repr

/-- A row of the `posts` table (`dbmodels.py`, class `DBPost`); the tag rows
of `tags` are folded into the post since they are only ever read through the
`tags` relationship.  `id` is the UUID as a string. -/
structure DBPost where
  id : String
  content : String
  owner_id : Nat
  createdAt : Int
  tags : List String
deriving DecidableEq, Repr

/-- Modelled from the spec: the `post_rates` table is referenced by
`main.py` (`from dbmodels import ... post_rates`, the upserts in
`like_post`/`dislike_post` naming columns `user_id`, `post_id`, `rate_type`
and the unique constraint `_post_rates_uc`) but its declaration is missing
from the `dbmodels.py` under src.  Per the Reaction model of the spec: one row
per (user, post) pair mapping to a rate_type, like = 1 and dislike = -1 as
in the `main.py` upserts. -/
structure Rate where
  user_id : Nat
  post_id : String
  rate_type : Int
deriving DecidableEq, Repr

/-- The database state: each table as a list of rows in insertion order. -/
structure DB where
  users : List DBUser
  countries : List DBCountry
  friends : List FriendEdge
  posts : List DBPost
  rates : List Rate
deriving DecidableEq, Repr

/-- Query `db_session.query(DBUser).filter(DBUser.login == login).first()`. -/
def findUserByLogin (db : DB) (login : String) : Option DBUser :=
  db.users.find? (fun u => u.login == login)

/-- Query `db_session.query(DBUser).filter(DBUser.id == user_id)` row lookup. -/
def findUserById (db : DB) (uid : Nat) : Option DBUser :=
  db.users.find? (fun u => u.id == uid)

/-- Query `db_session.query(DBPost).where(DBPost.id == post_id).first()`. -/
def findPost (db : DB) (pid : String) : Option DBPost :=
  db.posts.find? (fun p => p.id == pid)

/-- Membership test for the directed friend edge who → added, i.e. the
SQLAlchemy `current_user in target.friends` check against the `friends`
relationship (`primaryjoin` on `whoadded_id`, `secondaryjoin` on
`added_id`). -/
def edgeBetween (whoadded added : Nat) : FriendEdge → Bool :=
  fun e => e.whoadded_id == whoadded && e.added_id == added

/-- Does the directed friend edge who → added exist in storage? -/
def hasEdge (db : DB) (whoadded added : Nat) : Bool :=
  db.friends.any (edgeBetween whoadded added)

/-- An error response as produced by the exception handlers of `main.py`:
an HTTP status code and the `reason` string. -/
structure ErrResp where
  status : Nat
  reason : String
deriving DecidableEq, Repr

/-! ## Credential verifier

Modelled from the spec: the salted one-way hash (passlib bcrypt, an external
collaborator per §4.2) is abstracted as an injective tagging function; the
claims only depend on `verify_password p (get_password_hash p) = true` and
on hashes never colliding with other plaintexts. -/

/-- Abstraction of `get_password_hash` (`main.py`). -/
def get_password_hash (password : String) : String :=
  "bcrypt$" ++ password

/-- Abstraction of `verify_password` (`main.py`): a hash verifies exactly
against the plaintext it was produced from. -/
def verify_password (plain hashed : String) : Bool :=
  hashed == "bcrypt$" ++ plain

/-- The password complexity check of `auth_register` and `update_password`
(`main.py`): at least one lowercase letter, one uppercase letter and one
digit. -/
def password_complex (password : String) : Bool :=
  password.toList.any (fun c => c.isLower) &&
    password.toList.any (fun c => c.isUpper) &&
    password.toList.any (fun c => c.isDigit)

/-! ## Token codec and authorization guard (`auth.py`) -/

/-- The decoded JWT payload dictionary.  `auth_sign_in` encodes the key
`"login"`; `get_current_user` reads the keys `"user_id"`, `"issued_at"` and
`"expire_at"`, the latter two with default 0 when absent.  Every key a
payload may carry is an `Option` field. -/
structure TokenPayload where
  user_id : Option Nat
  login : Option String
  issued_at : Option Int
  expire_at : Option Int
deriving DecidableEq, Repr

/-- Function `create_access_token` (`auth.py`) as called by `auth_sign_in`
(`main.py`): the data dict `{"login": user.login}` extended with
`expire_at = now + ACCESS_TOKEN_EXPIRE_MINUTES·60` (720 minutes,
`config.py`) and `issued_at = now`.  No `user_id` key is ever set. -/
def create_access_token (data_login : String) (now : Int) : TokenPayload :=
  { user_id := none
    login := some data_login
    issued_at := some now
    expire_at := some (now + 720 * 60) }

/-- Outcome of `get_current_user` (`auth.py`).  `unauthenticated` is the
raised `CredentialsException` (rendered as a 401 with its fixed reason);
`unhandledNoResultFound` is the `sqlalchemy.exc.NoResultFound` raised by
`.one()` when no row matches — it is raised outside any matching `except`
clause, so it escapes the guard as an unhandled server error, not a 401. -/
inductive GuardResult where
  | unauthenticated
  | unhandledNoResultFound
  | ok (u : DBUser)
deriving DecidableEq, Repr

/-- Guard `get_current_user` (`auth.py`).  The bearer token has already been
decoded: `decoded = none` is a `JWTError` (bad signature or unparseable),
`some payload` a verified payload.  Steps as in the source: missing
`user_id` claim → `CredentialsException`; `.one()` lookup of the id (raises
`NoResultFound` when absent — the subsequent `user is None` test is dead
code); reject when `user.updated_at >= payload.get("issued_at", 0)` or
`payload.get("expire_at", 0) < now`. -/
def get_current_user (decoded : Option TokenPayload) (db : DB) (now : Int) :
    GuardResult :=
  match decoded with
  | none => .unauthenticated
  | some payload =>
    match payload.user_id with
    | none => .unauthenticated
    | some uid =>
      match findUserById db uid with
      | none => .unhandledNoResultFound
      | some user =>
        let token_issued := payload.issued_at.getD 0
        let expire_at := payload.expire_at.getD 0
        if user.updated_at ≥ token_issued ∨ expire_at < now then
          .unauthenticated
        else
          .ok user

/-- Handler `auth_sign_in` (`main.py`): look the login up, verify the password,
401 `"user not found"` on either failure, else issue a token via
`create_access_token({"login": user.login})`. -/
def auth_sign_in (db : DB) (login password : String) (now : Int) :
    Except ErrResp TokenPayload :=
  match findUserByLogin db login with
  | none => .error ⟨401, "user not found"⟩
  | some user =>
    if verify_password password user.password then
      .ok (create_access_token user.login now)
    else
      .error ⟨401, "user not found"⟩

/-! ## Registration and password change (`main.py`) -/

/-- The body of POST /auth/register (`models.py`,
`AuthRegisterPostRequest`), after schema validation. -/
structure RegisterBody where
  login : String
  email : String
  password : String
  countryCode : String
  isPublic : Bool
  phone : Option String
  image : Option String
deriving DecidableEq, Repr

/-- The uniqueness conflict caught by the `commit` of `auth_register`: the
`users` table declares `login`, `email` and `phone` unique. -/
def registerConflict (db : DB) (body : RegisterBody) : Bool :=
  db.users.any (fun u =>
    u.login == body.login || u.email == body.email ||
      (body.phone.isSome && u.phone == body.phone))

/-- Handler `auth_register` (`main.py`): reject a password missing a lowercase
letter, an uppercase letter or a digit (400 `"invalid password"`); reject
the login `"my"` (400 `"invalid login"`); hash the password; reject an
unknown country code (400 `"no such country"`); insert, turning a failed
commit into 409 `"conflict"`.  `newId` is the id the database assigns and
`now` the insert timestamp written to `updated_at` by the `before_insert`
hook of `dbmodels.py`. -/
def auth_register (db : DB) (body : RegisterBody) (newId : Nat) (now : Int) :
    Except ErrResp DBUser × DB :=
  if !password_complex body.password then
    (.error ⟨400, "invalid password"⟩, db)
  else if body.login == "my" then
    (.error ⟨400, "invalid login"⟩, db)
  else if !(db.countries.any (fun c => c.alpha2 == body.countryCode)) then
    (.error ⟨400, "no such country"⟩, db)
  else if registerConflict db body then
    (.error ⟨409, "conflict"⟩, db)
  else
    let user : DBUser :=
      { id := newId
        login := body.login
        password := get_password_hash body.password
        email := body.email
        countryCode := body.countryCode
        isPublic := body.isPublic
        phone := body.phone
        image := body.image
        updated_at := now }
    (.ok user, { db with users := db.users ++ [user] })

/-- Replace the row with `u.id` by `u`, as committing a mutated ORM object
does. -/
def updateUser (db : DB) (u : DBUser) : DB :=
  { db with users := db.users.map (fun v => if v.id == u.id then u else v) }

/-- Handler `update_password` (`main.py`): complexity check on the new password
(400 `"invalid password"`), verify the old password against the stored hash
(403 `"invalid old password"`), then store the new hash and set
`updated_at` to the current time. -/
def update_password (db : DB) (current : DBUser)
    (oldPassword newPassword : String) (now : Int) :
    Except ErrResp String × DB :=
  if !password_complex newPassword then
    (.error ⟨400, "invalid password"⟩, db)
  else if !verify_password oldPassword current.password then
    (.error ⟨403, "invalid old password"⟩, db)
  else
    let user := { current with
                    password := get_password_hash newPassword
                    updated_at := now }
    (.ok "ok", updateUser db user)

/-! ## Profiles and feeds (`main.py`) -/

/-- Handler `get_profile` (`main.py`): 403 `"access denied"` when the login does
not resolve, or when the target is private and the requested login is not
the own login of the actor and the actor is not in the (outgoing) friends
list; otherwise the profile. -/
def get_profile (db : DB) (current : DBUser) (login : String) :
    Except ErrResp DBUser :=
  match findUserByLogin db login with
  | none => .error ⟨403, "access denied"⟩
  | some user_account =>
    if !user_account.isPublic &&
        (!(login == current.login) &&
          !hasEdge db user_account.id current.id) then
      .error ⟨403, "access denied"⟩
    else
      .ok user_account

/-- The public post projection built by the handlers of `main.py` (`Post`
in `models.py`); `createdAt` is kept as the timestamp rather than its
RFC3339 rendering.  `likesCount`/`dislikesCount` are modelled from the
spec: the `liked_users`/`disliked_users` relationships are absent from the
`dbmodels.py` under src, and per the spec they count the reaction rows of
the post with rate_type like (1) resp. dislike (-1). -/
structure Post where
  id : String
  content : String
  author : String
  createdAt : Int
  tags : List String
  likesCount : Nat
  dislikesCount : Nat
deriving DecidableEq, Repr

/-- Number of reaction rows of post `pid` with the given `rate_type`. -/
def countRate (rates : List Rate) (pid : String) (rt : Int) : Nat :=
  (rates.filter (fun r => r.post_id == pid && r.rate_type == rt)).length

/-- Shape `Post(...)` as constructed repeatedly in the handlers of `main.py`:
project a row and its owner into the public shape. -/
def projectPost (db : DB) (post : DBPost) : Post :=
  { id := post.id
    content := post.content
    author := ((findUserById db post.owner_id).map (fun u => u.login)).getD ""
    createdAt := post.createdAt
    tags := post.tags
    likesCount := countRate db.rates post.id 1
    dislikesCount := countRate db.rates post.id (-1) }

/-- Relationship `current_user.posts`: the posts owned by a user, in insertion order. -/
def userPosts (db : DB) (u : DBUser) : List DBPost :=
  db.posts.filter (fun p => p.owner_id == u.id)

/-- The Python slice `posts[offset:offset+limit]` for validated
non-negative `offset` and `limit`. -/
def slicePosts (posts : List DBPost) (offset limit : Nat) : List DBPost :=
  (posts.drop offset).take limit

/-- Handler `get_my_feed` (`main.py`): the query parameters are declared
`conint(ge=0, le=50)` default 5 and `conint(ge=0)` default 0, so an
out-of-range value raises `RequestValidationError`, rendered as a 400 by
the exception handler; a valid request slices the posts of the actor. -/
def get_my_feed (db : DB) (current : DBUser) (limit offset : Option Int) :
    Except ErrResp (List Post) :=
  let l := limit.getD 5
  let o := offset.getD 0
  if l < 0 ∨ 50 < l ∨ o < 0 then
    .error ⟨400, "validation error"⟩
  else
    .ok ((slicePosts (userPosts db current) o.toNat l.toNat).map
      (projectPost db))

/-- Modelled from the spec, for comparison with `get_my_feed`, following its words:
"applies pagination via `(offset, limit)` with `limit` clamped to [0, 50]
default 5, `offset >= 0` default 0" — an out-of-range limit is clamped to
the nearest bound instead of rejected. -/
def my_feed_spec_clamped (db : DB) (current : DBUser)
    (limit offset : Option Int) : List Post :=
  let l := min (max (limit.getD 5) 0) 50
  let o := max (offset.getD 0) 0
  (slicePosts (userPosts db current) o.toNat l.toNat).map (projectPost db)

/-- Handler `get_feed_by_others` (`main.py`): 404 `"posts not found"` when the
login does not resolve, or when the target is private, is not the actor,
and the actor is not in the friends list of the target; otherwise the slice
of the posts of the target. -/
def get_feed_by_others (db : DB) (current : DBUser) (login : String)
    (limit offset : Option Int) : Except ErrResp (List Post) :=
  let l := limit.getD 5
  let o := offset.getD 0
  if l < 0 ∨ 50 < l ∨ o < 0 then
    .error ⟨400, "validation error"⟩
  else
    match findUserByLogin db login with
    | none => .error ⟨404, "posts not found"⟩
    | some user =>
      if !user.isPublic && !(user.id == current.id) &&
          !hasEdge db user.id current.id then
        .error ⟨404, "posts not found"⟩
      else
        .ok ((slicePosts (userPosts db user) o.toNat l.toNat).map
          (projectPost db))

/-! ## Relationship manager (`main.py`) -/

/-- Handler `friends_add` (`main.py`): self-add returns `"ok"` without touching the
database; an unresolvable target login is 404 `"user not found"`; otherwise
the edge actor → target is appended and the unique-constraint
violation (when the edge already exists) is swallowed by `except: pass`, so
the call returns `"ok"` and the storage is unchanged in that case. -/
def friends_add (db : DB) (current : DBUser) (login : String) (now : Int) :
    Except ErrResp String × DB :=
  if login == current.login then
    (.ok "ok", db)
  else
    match findUserByLogin db login with
    | none => (.error ⟨404, "user not found"⟩, db)
    | some target =>
      if hasEdge db current.id target.id then
        (.ok "ok", db)
      else
        (.ok "ok",
          { db with friends := db.friends ++ [⟨current.id, target.id, now⟩] })

/-- Handler `friends_remove` (`main.py`): an unresolvable target login returns
`"ok"` untouched; otherwise the friends list of the actor is rewritten without
the target, i.e. every edge actor → target is deleted, and the call returns
`"ok"`. -/
def friends_remove (db : DB) (current : DBUser) (login : String) :
    Except ErrResp String × DB :=
  match findUserByLogin db login with
  | none => (.ok "ok", db)
  | some target =>
    let keep := fun (e : FriendEdge) =>
      !(e.whoadded_id == current.id && e.added_id == target.id)
    (.ok "ok", { db with friends := db.friends.filter keep })

/-! ## Reaction manager (`main.py`) -/

/-- Does this reaction row belong to the (user, post) pair covered by the
unique constraint `_post_rates_uc`? -/
def ratePair (uid : Nat) (pid : String) : Rate → Bool :=
  fun r => r.user_id == uid && r.post_id == pid

/-- The `INSERT ... ON CONFLICT (_post_rates_uc) DO UPDATE SET rate_type`
executed by `like_post`/`dislike_post`: when a row for the (user, post)
pair exists its `rate_type` is overwritten, otherwise a new row is
inserted. -/
def upsertRate (rates : List Rate) (uid : Nat) (pid : String) (rt : Int) :
    List Rate :=
  if rates.any (ratePair uid pid) then
    rates.map (fun r =>
      if ratePair uid pid r then { r with rate_type := rt } else r)
  else
    rates ++ [⟨uid, pid, rt⟩]

/-- Statement helper: a like row on post `pid` by a user other than `uid`.
The count of such rows is the part of likesCount that a reaction by `uid`
must not disturb. -/
def otherLikes (uid : Nat) (pid : String) : Rate → Bool :=
  fun r => r.post_id == pid && r.rate_type == 1 && !(r.user_id == uid)

/-- The shared body of `like_post` and `dislike_post` (`main.py`): resolve
the post (404 `"post not found"` when absent), apply the owner-visibility
check (404 on failure, indistinguishable from absence), execute the atomic
upsert with the given `rate_type` (1 for like, -1 for dislike), and return
the post projected against the refreshed state.  The owner lookup is the
`post.owner` relationship; the foreign key guarantees it resolves, and a
dangling owner is rendered as the same 404. -/
def set_reaction (db : DB) (current : DBUser) (pid : String) (rt : Int) :
    Except ErrResp Post × DB :=
  match findPost db pid with
  | none => (.error ⟨404, "post not found"⟩, db)
  | some post =>
    match findUserById db post.owner_id with
    | none => (.error ⟨404, "post not found"⟩, db)
    | some owner =>
      if !owner.isPublic && !(owner.id == current.id) &&
          !hasEdge db owner.id current.id then
        (.error ⟨404, "post not found"⟩, db)
      else
        let db2 := { db with rates := upsertRate db.rates current.id pid rt }
        (.ok (projectPost db2 post), db2)

/-- Handler `like_post` (`main.py`): the reaction upsert with rate_type 1. -/
def like_post (db : DB) (current : DBUser) (pid : String) :
    Except ErrResp Post × DB :=
  set_reaction db current pid 1

/-- Handler `dislike_post` (`main.py`): the reaction upsert with rate_type -1. -/
def dislike_post (db : DB) (current : DBUser) (pid : String) :
    Except ErrResp Post × DB :=
  set_reaction db current pid (-1)

/-! ## Concrete database states for witnesses and counterexamples -/

/-- Sample public user. -/
def alice : DBUser :=
  { id := 1
    login := "alice"
    password := get_password_hash "Passw0rd1"
    email := "alice@example.com"
    countryCode := "RU"
    isPublic := true
    phone := none
    image := none
    updated_at := 50 }

/-- Sample private user with no friend edges. -/
def bob : DBUser :=
  { id := 2
    login := "bob"
    password := get_password_hash "Passw0rd2"
    email := "bob@example.com"
    countryCode := "RU"
    isPublic := false
    phone := none
    image := none
    updated_at := 50 }

/-- Sample public user owning ten posts. -/
def carol : DBUser :=
  { id := 3
    login := "carol"
    password := get_password_hash "Passw0rd3"
    email := "carol@example.com"
    countryCode := "RU"
    isPublic := true
    phone := none
    image := none
    updated_at := 50 }

/-- Sample country row. -/
def ruCountry : DBCountry :=
  { name := "Russia", alpha2 := "RU", alpha3 := "RUS", region := "Europe" }

/-- State with just `alice`. -/
def dbAuth : DB :=
  { users := [alice], countries := [ruCountry], friends := [], posts := [],
    rates := [] }

/-- State with `alice` (public) and `bob` (private), no friend edges. -/
def dbVis : DB :=
  { users := [alice, bob], countries := [ruCountry], friends := [],
    posts := [], rates := [] }

/-- The i-th of the ten posts of `carol`, created in order. -/
def feedPost (i : Nat) : DBPost :=
  { id := toString i, content := "post", owner_id := 3,
    createdAt := Int.ofNat i, tags := [] }

/-- State where `carol` owns ten posts in creation order. -/
def dbFeed : DB :=
  { users := [carol], countries := [ruCountry], friends := [],
    posts := (List.range 10).map feedPost, rates := [] }

/-- A post owned by `alice`. -/
def alicePost : DBPost :=
  { id := "p1", content := "hello", owner_id := 1, createdAt := 10,
    tags := ["greeting"] }

/-- State where `alice` owns a post she has already liked herself; `bob`
is the reacting actor. -/
def dbReact : DB :=
  { users := [alice, bob], countries := [ruCountry], friends := [],
    posts := [alicePost], rates := [⟨1, "p1", 1⟩] }

/-! ## C1 — sign-in tokens and the guard -/

/-- C1: refuted on the code (code bug).  A user signs in successfully at
time 100; the resulting token is presented at time 101, well before expiry,
with `updated_at` (50) strictly below issuance — yet the guard rejects it
with `CredentialsException`, because `auth_sign_in` encodes the identity
under the `"login"` key while `get_current_user` reads the `"user_id"` key,
which is never present.  The claim (and the spec) say the guard yields the
user as the current actor. -/
theorem c1_sign_in_token_never_accepted :
    auth_sign_in dbAuth "alice" "Passw0rd1" 100 =
      Except.ok (create_access_token "alice" 100) ∧
    alice.updated_at < 100 ∧
    (101 : Int) < 100 + 720 * 60 ∧
    get_current_user (some (create_access_token "alice" 100)) dbAuth 101 =
      GuardResult.unauthenticated ∧
    GuardResult.unauthenticated ≠ GuardResult.ok alice := by
  refine ⟨rfl, by decide, by decide, rfl, by decide⟩

/-! ## C2 — unresolvable identity claim -/

/-- C2: refuted on the code (code bug).  A structurally valid token whose
`user_id` claim (99) matches no user row makes `get_current_user` call
`.one()`, which raises `sqlalchemy.exc.NoResultFound`; the surrounding
`try` only catches `JWTError`, so the error escapes unhandled instead of
collapsing to the 401 `Unauthenticated` the claim (and the dead
`if user is None` branch) prescribe. -/
theorem c2_missing_user_unhandled_error :
    get_current_user
        (some { user_id := some 99, login := none, issued_at := some 100,
                expire_at := some 43300 }) dbAuth 101 =
      GuardResult.unhandledNoResultFound ∧
    GuardResult.unhandledNoResultFound ≠ GuardResult.unauthenticated := by
  refine ⟨rfl, by decide⟩

/-! ## C3 — freshness check -/

/-- C3: for every token whose identity claim resolves to a user `u`, if
`u.updated_at ≥ issued_at` at validation time then the guard raises
`CredentialsException` (the 401 `Unauthenticated`), whatever the current
time — in particular even when the token is unexpired and its signature
verified (the payload decoded). -/
theorem c3_stale_token_rejected (db : DB) (payload : TokenPayload)
    (uid : Nat) (u : DBUser) (t now : Int)
    (hid : payload.user_id = some uid)
    (hu : findUserById db uid = some u)
    (ht : payload.issued_at = some t)
    (hstale : t ≤ u.updated_at) :
    get_current_user (some payload) db now = GuardResult.unauthenticated := by
  simp only [get_current_user, hid, hu, ht, Option.getD_some]
  rw [if_pos (Or.inl hstale)]

/-- C3 witness: after `update_password` runs for `alice` at time 200
(storing the new hash and setting `updated_at` to 200), a token with
`issued_at = 150` and a far-away expiry is rejected at time 300. -/
theorem c3_stale_token_rejected_witness :
    get_current_user
        (some { user_id := some 1, login := none, issued_at := some 150,
                expire_at := some 99999 })
        (update_password dbAuth alice "Passw0rd1" "NewPass9x" 200).2 300 =
      GuardResult.unauthenticated :=
  c3_stale_token_rejected _ _ 1
    { alice with password := get_password_hash "NewPass9x", updated_at := 200 }
    150 300 rfl (by decide) rfl (by decide)

/-! ## C4 — expiry boundary -/

/-- C4 counterexample: a token with `expire_at = 100` presented at
`now = 100` (with `user_id` resolving to `alice` and `updated_at = 50`
below `issued_at = 60`) is accepted by the guard and yields `alice`,
whereas the claim says a token presented at `now = expire_at` is
rejected as expired. -/
theorem c4_token_accepted_at_expiry_instant :
    get_current_user
        (some { user_id := some 1, login := none, issued_at := some 60,
                expire_at := some 100 }) dbAuth 100 =
      GuardResult.ok alice ∧
    GuardResult.ok alice ≠ GuardResult.unauthenticated := by
  refine ⟨by decide, by decide⟩

/-- C4 amended: the guard rejects a token as expired exactly when
`now > expire_at` (the source test is `expire_at < now`); a fresh,
resolvable token presented at `now = expire_at` is still accepted. -/
theorem c4_expiry_boundary_strict (db : DB) (payload : TokenPayload)
    (uid : Nat) (u : DBUser) (t e now : Int)
    (hid : payload.user_id = some uid)
    (hu : findUserById db uid = some u)
    (ht : payload.issued_at = some t)
    (he : payload.expire_at = some e)
    (hfresh : u.updated_at < t) :
    get_current_user (some payload) db now =
      if e < now then GuardResult.unauthenticated else GuardResult.ok u := by
  simp only [get_current_user, hid, hu, ht, he, Option.getD_some]
  by_cases hnow : e < now
  · rw [if_pos (Or.inr hnow), if_pos hnow]
  · rw [if_neg ?_, if_neg hnow]
    intro hor
    rcases hor with hle | hlt
    · exact absurd hfresh (not_lt.mpr hle)
    · exact hnow hlt

/-- C4 amended witness: at `now = 99 < expire_at = 100` the concrete token
for `alice` is accepted (the `if` evaluates to the accepting branch). -/
theorem c4_expiry_boundary_strict_witness :
    get_current_user
        (some { user_id := some 1, login := none, issued_at := some 60,
                expire_at := some 100 }) dbAuth 99 =
      if (100 : Int) < 99 then GuardResult.unauthenticated
      else GuardResult.ok alice :=
  c4_expiry_boundary_strict dbAuth _ 1 alice 60 100 99 rfl (by decide) rfl rfl
    (by decide)

/-! ## C5 — visibility denial asymmetry (profiles 403, feeds 404) -/

/-- C5: for a private target with no outgoing friend edges and an actor
that is neither the target (by login or id), the profile lookup returns
403 `"access denied"` while the feed lookup (with default pagination)
returns 404 `"posts not found"` — the same denial, different status per
endpoint. -/
theorem c5_private_denial_asymmetry (db : DB) (a u2 : DBUser)
    (hfind : findUserByLogin db u2.login = some u2)
    (hpriv : u2.isPublic = false)
    (hnoedge : ∀ e ∈ db.friends, e.whoadded_id ≠ u2.id)
    (hlog : u2.login ≠ a.login)
    (hid : u2.id ≠ a.id) :
    get_profile db a u2.login = Except.error ⟨403, "access denied"⟩ ∧
    get_feed_by_others db a u2.login none none =
      Except.error ⟨404, "posts not found"⟩ := by
  have hedge : hasEdge db u2.id a.id = false := by
    simp only [hasEdge, edgeBetween, List.any_eq_false, Bool.and_eq_true,
      beq_iff_eq, not_and]
    intro e he h1
    exact absurd h1 (hnoedge e he)
  constructor
  · simp [get_profile, hfind, hpriv, hedge, hlog]
  · simp [get_feed_by_others, hfind, hpriv, hedge, hid]

/-- C5 witness: in the state with public `alice` and private, friendless
`bob`, the profile of `bob` requested by `alice` is a 403 and the feed of
`bob` a 404. -/
theorem c5_private_denial_asymmetry_witness :
    get_profile dbVis alice "bob" = Except.error ⟨403, "access denied"⟩ ∧
    get_feed_by_others dbVis alice "bob" none none =
      Except.error ⟨404, "posts not found"⟩ :=
  c5_private_denial_asymmetry dbVis alice bob (by decide) (by decide)
    (by decide) (by decide) (by decide)

/-! ## C9 — unknown profile login also yields 403 -/

/-- C9: a login that resolves to no user makes `get_profile` return the
same 403 `"access denied"` as a visibility denial, never a 404. -/
theorem c9_unknown_login_profile_denied (db : DB) (a : DBUser)
    (login : String) (hnone : findUserByLogin db login = none) :
    get_profile db a login = Except.error ⟨403, "access denied"⟩ := by
  simp [get_profile, hnone]

/-- C9 witness: the login `"ghost"` resolves to no user of `dbVis`, and
its profile lookup by `alice` is the 403. -/
theorem c9_unknown_login_profile_denied_witness :
    get_profile dbVis alice "ghost" = Except.error ⟨403, "access denied"⟩ :=
  c9_unknown_login_profile_denied dbVis alice "ghost" (by decide)

/-! ## C10 — the reserved login "my" -/

/-- C10 counterexample: a registration with login `"my"` and the
schema-valid but complexity-failing password `"abcdefg"` is rejected with
reason `"invalid password"`, not the `"invalid login"` error the claim
promises for every such registration — the password check runs first. -/
theorem c10_password_error_shadows_login_my :
    (auth_register dbVis
        { login := "my", email := "m@example.com", password := "abcdefg",
          countryCode := "RU", isPublic := true, phone := none,
          image := none } 9 100).1 =
      Except.error ⟨400, "invalid password"⟩ ∧
    (⟨400, "invalid password"⟩ : ErrResp) ≠ ⟨400, "invalid login"⟩ := by
  refine ⟨rfl, by decide⟩

/-- C10 amended: a registration whose login is `"my"` always fails with a
400 and creates no user; the reason is `"invalid login"` exactly when the
password passes the complexity check (checked before the login), and
`"invalid password"` otherwise. -/
theorem c10_login_my_always_rejected (db : DB) (body : RegisterBody)
    (newId : Nat) (now : Int) (hmy : body.login = "my") :
    (auth_register db body newId now).2 = db ∧
    (auth_register db body newId now).1 =
      (if password_complex body.password then
        Except.error ⟨400, "invalid login"⟩
       else Except.error ⟨400, "invalid password"⟩) := by
  unfold auth_register
  rw [hmy]
  by_cases hc : password_complex body.password
  · simp [hc]
  · simp [hc]

/-- C10 amended witness: registering login `"my"` with a complexity-passing
password leaves the state unchanged and yields `"invalid login"`. -/
theorem c10_login_my_always_rejected_witness :
    (auth_register dbVis
        { login := "my", email := "m@example.com", password := "Passw0rd9",
          countryCode := "RU", isPublic := true, phone := none,
          image := none } 9 100).2 = dbVis ∧
    (auth_register dbVis
        { login := "my", email := "m@example.com", password := "Passw0rd9",
          countryCode := "RU", isPublic := true, phone := none,
          image := none } 9 100).1 =
      (if password_complex "Passw0rd9" then
        Except.error ⟨400, "invalid login"⟩
       else Except.error ⟨400, "invalid password"⟩) :=
  c10_login_my_always_rejected dbVis
    { login := "my", email := "m@example.com", password := "Passw0rd9",
      countryCode := "RU", isPublic := true, phone := none, image := none }
    9 100 rfl

/-! ## C7 — idempotent friend operations -/

/-- Adding a friend never touches the `users` table. -/
theorem friends_add_users_eq (db : DB) (a : DBUser) (l : String)
    (now : Int) : (friends_add db a l now).2.users = db.users := by
  unfold friends_add
  split
  · rfl
  · split
    · rfl
    · split <;> rfl

/-- Login lookup only reads the `users` table. -/
theorem findUserByLogin_congr (db1 db2 : DB) (l : String)
    (h : db1.users = db2.users) :
    findUserByLogin db1 l = findUserByLogin db2 l := by
  unfold findUserByLogin
  rw [h]

/-- After `friends_add` for a resolvable, non-self target there is exactly
one directed edge actor → target in storage, whether or not the edge was
already there (the unique constraint guarantees the initial count is at
most one). -/
theorem friends_add_edge_count (db : DB) (a b : DBUser) (now : Int)
    (hfind : findUserByLogin db b.login = some b)
    (hne : b.login ≠ a.login)
    (hcount : (db.friends.filter (edgeBetween a.id b.id)).length ≤ 1) :
    ((friends_add db a b.login now).2.friends.filter
        (edgeBetween a.id b.id)).length = 1 := by
  have hbeq : (b.login == a.login) = false := by
    simp [hne]
  simp only [friends_add, hbeq, Bool.false_eq_true, if_false, hfind]
  by_cases hE : hasEdge db a.id b.id = true
  · rw [if_pos hE]
    rcases List.any_eq_true.mp hE with ⟨e, he, hpe⟩
    have hmem : e ∈ db.friends.filter (edgeBetween a.id b.id) :=
      List.mem_filter.mpr ⟨he, hpe⟩
    have hpos : 0 < (db.friends.filter (edgeBetween a.id b.id)).length :=
      List.length_pos.mpr (List.ne_nil_of_mem hmem)
    exact Nat.le_antisymm hcount hpos
  · rw [if_neg hE]
    have hfalse : db.friends.any (edgeBetween a.id b.id) = false := by
      simpa [hasEdge] using hE
    have hnil : db.friends.filter (edgeBetween a.id b.id) = [] :=
      List.filter_eq_nil_iff.mpr (List.any_eq_false.mp hfalse)
    simp [List.filter_append, hnil, edgeBetween]

/-- Adding a resolvable, non-self friend returns the `"ok"` status whether
or not the edge already existed. -/
theorem friends_add_fst_ok (db : DB) (a b : DBUser) (now : Int)
    (hfind : findUserByLogin db b.login = some b)
    (hne : b.login ≠ a.login) :
    (friends_add db a b.login now).1 = Except.ok "ok" := by
  have hbeq : (b.login == a.login) = false := by
    simp [hne]
  simp only [friends_add, hbeq, Bool.false_eq_true, if_false, hfind]
  by_cases hE : hasEdge db a.id b.id = true <;> simp [hE]

/-- C7: friend operations are idempotent as the claim states — self-add is
a trivial success no-op; adding a resolvable target succeeds twice in a row
and leaves exactly one directed edge; removal succeeds for every login,
resolvable (here the target) or not (here `ghost`); and only `friends_add`
reports the 404 `"user not found"`, on an unresolvable target. -/
theorem c7_friend_ops_idempotent (db : DB) (a b : DBUser) (ghost : String)
    (now1 now2 now3 : Int)
    (hfind : findUserByLogin db b.login = some b)
    (hne : b.login ≠ a.login)
    (hcount : (db.friends.filter (edgeBetween a.id b.id)).length ≤ 1)
    (hghost : findUserByLogin db ghost = none)
    (hghostne : ghost ≠ a.login) :
    friends_add db a a.login now3 = (Except.ok "ok", db) ∧
    (friends_add db a b.login now1).1 = Except.ok "ok" ∧
    (friends_add (friends_add db a b.login now1).2 a b.login now2).1 =
      Except.ok "ok" ∧
    ((friends_add (friends_add db a b.login now1).2 a b.login
        now2).2.friends.filter (edgeBetween a.id b.id)).length = 1 ∧
    (friends_remove db a ghost).1 = Except.ok "ok" ∧
    (friends_remove db a b.login).1 = Except.ok "ok" ∧
    friends_add db a ghost now3 = (Except.error ⟨404, "user not found"⟩, db)
    := by
  have hbeq : (b.login == a.login) = false := by
    simp [hne]
  have hfind1 : findUserByLogin (friends_add db a b.login now1).2 b.login =
      some b := by
    rw [findUserByLogin_congr _ db b.login (friends_add_users_eq db a _ now1)]
    exact hfind
  have hcount1 : ((friends_add db a b.login now1).2.friends.filter
      (edgeBetween a.id b.id)).length ≤ 1 :=
    le_of_eq (friends_add_edge_count db a b now1 hfind hne hcount)
  refine ⟨?_, ?_, ?_, ?_, ?_, ?_, ?_⟩
  · simp [friends_add]
  · exact friends_add_fst_ok db a b now1 hfind hne
  · exact friends_add_fst_ok _ a b now2 hfind1 hne
  · exact friends_add_edge_count _ a b now2 hfind1 hne hcount1
  · simp [friends_remove, hghost]
  · simp [friends_remove, hfind]
  · have hgbeq : (ghost == a.login) = false := by
      simp [hghostne]
    simp [friends_add, hgbeq, hghost]

/-- C7 witness: `alice` adds `bob` twice in the two-user state with no
edges; both calls succeed and exactly one edge remains; removals succeed
for `"ghost"` and `"bob"`; adding `"ghost"` is the only 404. -/
theorem c7_friend_ops_idempotent_witness :
    friends_add dbVis alice alice.login 30 = (Except.ok "ok", dbVis) ∧
    (friends_add dbVis alice bob.login 10).1 = Except.ok "ok" ∧
    (friends_add (friends_add dbVis alice bob.login 10).2 alice bob.login
        20).1 = Except.ok "ok" ∧
    ((friends_add (friends_add dbVis alice bob.login 10).2 alice bob.login
        20).2.friends.filter (edgeBetween alice.id bob.id)).length = 1 ∧
    (friends_remove dbVis alice "ghost").1 = Except.ok "ok" ∧
    (friends_remove dbVis alice bob.login).1 = Except.ok "ok" ∧
    friends_add dbVis alice "ghost" 30 =
      (Except.error ⟨404, "user not found"⟩, dbVis) :=
  c7_friend_ops_idempotent dbVis alice bob "ghost" 10 20 30 (by decide)
    (by decide) (by decide) (by decide) (by decide)

/-! ## C8 — feed pagination -/

/-- C8 counterexample: with `carol` owning ten posts, requesting
`limit = 60` makes `get_my_feed` return the 400 validation error — the
limit is rejected, not clamped to 50 as the claim (read literally) says,
so the result differs from the clamping semantics spelled out by the
spec. -/
theorem c8_limit_rejected_not_clamped :
    get_my_feed dbFeed carol (some 60) (some 0) =
      Except.error ⟨400, "validation error"⟩ ∧
    ¬ (get_my_feed dbFeed carol (some 60) (some 0) =
        Except.ok (my_feed_spec_clamped dbFeed carol (some 60) (some 0))) := by
  constructor
  · rfl
  · intro h
    rw [show get_my_feed dbFeed carol (some 60) (some 0) =
        Except.error ⟨400, "validation error"⟩ from rfl] at h
    exact Except.noConfusion h

/-- C8 amended: `limit` is validated into [0, 50] (a 400 otherwise) with
default 5 and `offset ≥ 0` with default 0; a valid request slices the
posts of the owner in creation order; and for an owner with exactly ten
posts, `limit = 5, offset = 7` returns exactly the last three. -/
theorem c8_feed_pagination (db : DB) (u : DBUser) (limit offset : Int)
    (hl0 : 0 ≤ limit) (hl50 : limit ≤ 50) (ho : 0 ≤ offset)
    (h10 : (userPosts db u).length = 10) :
    get_my_feed db u (some limit) (some offset) =
      Except.ok ((((userPosts db u).drop offset.toNat).take limit.toNat).map
        (projectPost db)) ∧
    get_my_feed db u none none = get_my_feed db u (some 5) (some 0) ∧
    get_my_feed db u (some 5) (some 7) =
      Except.ok (((userPosts db u).drop 7).map (projectPost db)) ∧
    ((userPosts db u).drop 7).length = 3 := by
  have hdrop : ((userPosts db u).drop 7).length = 3 := by
    rw [List.length_drop, h10]
  refine ⟨?_, rfl, ?_, hdrop⟩
  · unfold get_my_feed
    rw [if_neg ?_]
    · rfl
    · simp only [Option.getD_some, not_or, not_lt]
      exact ⟨hl0, hl50, ho⟩
  · unfold get_my_feed
    rw [if_neg ?_]
    · show Except.ok ((((userPosts db u).drop 7).take 5).map
        (projectPost db)) = _
      rw [List.take_of_length_le (by rw [hdrop]; omega)]
    · simp only [Option.getD_some, not_or, not_lt]
      refine ⟨by norm_num, by norm_num, by norm_num⟩

/-- C8 amended witness: `carol` with her ten posts, `limit = 5` and
`offset = 7`. -/
theorem c8_feed_pagination_witness :
    get_my_feed dbFeed carol (some 5) (some 7) =
      Except.ok ((((userPosts dbFeed carol).drop (7 : Int).toNat).take
        (5 : Int).toNat).map (projectPost dbFeed)) ∧
    get_my_feed dbFeed carol none none =
      get_my_feed dbFeed carol (some 5) (some 0) ∧
    get_my_feed dbFeed carol (some 5) (some 7) =
      Except.ok (((userPosts dbFeed carol).drop 7).map (projectPost dbFeed)) ∧
    ((userPosts dbFeed carol).drop 7).length = 3 :=
  c8_feed_pagination dbFeed carol 5 7 (by decide) (by decide) (by decide)
    (by decide)

/-! ## C6 — like then dislike -/

/-- A pair row rewritten by the upsert is exactly the fresh row. -/
theorem ratePair_overwrite (r : Rate) (uid : Nat) (pid : String) (rt : Int)
    (hp : ratePair uid pid r = true) :
    ({ r with rate_type := rt } : Rate) = ⟨uid, pid, rt⟩ := by
  rcases r with ⟨ru, rp, rr⟩
  simp only [ratePair, Bool.and_eq_true, beq_iff_eq] at hp
  simp [hp.1, hp.2]

/-- Filtering the overwrite map for the pair collapses every matching row
to the fresh row. -/
theorem filter_pair_overwrite (rates : List Rate) (uid : Nat) (pid : String)
    (rt : Int) :
    ((rates.map (fun r =>
        if ratePair uid pid r then { r with rate_type := rt } else r)).filter
      (ratePair uid pid)) =
      (rates.filter (ratePair uid pid)).map (fun _ => (⟨uid, pid, rt⟩ : Rate))
    := by
  induction rates with
  | nil => rfl
  | cons r rs ih =>
    by_cases hp : ratePair uid pid r = true
    · have hr := ratePair_overwrite r uid pid rt hp
      have hp2 : ratePair uid pid (⟨uid, pid, rt⟩ : Rate) = true := by
        simp [ratePair]
      simp only [List.map_cons, List.filter_cons, hp, if_true, hr, hp2, ih]
    · have hp0 : ratePair uid pid r = false := by
        simpa using hp
      simp only [List.map_cons, List.filter_cons, hp0, if_false,
        Bool.false_eq_true, ih]

/-- After the upsert there is exactly one row for the pair — the fresh one
— provided the unique constraint held before (at most one pair row). -/
theorem upsert_filter_pair (rates : List Rate) (uid : Nat) (pid : String)
    (rt : Int) (h : (rates.filter (ratePair uid pid)).length ≤ 1) :
    (upsertRate rates uid pid rt).filter (ratePair uid pid) =
      [(⟨uid, pid, rt⟩ : Rate)] := by
  unfold upsertRate
  by_cases hA : rates.any (ratePair uid pid) = true
  · rw [if_pos hA, filter_pair_overwrite]
    rcases List.any_eq_true.mp hA with ⟨e, he, hpe⟩
    have hmem : e ∈ rates.filter (ratePair uid pid) :=
      List.mem_filter.mpr ⟨he, hpe⟩
    have hpos : 0 < (rates.filter (ratePair uid pid)).length :=
      List.length_pos.mpr (List.ne_nil_of_mem hmem)
    obtain ⟨x, hx⟩ := List.length_eq_one.mp (Nat.le_antisymm h hpos)
    rw [hx]
    rfl
  · rw [if_neg hA]
    have hfalse : rates.any (ratePair uid pid) = false := by
      simpa using hA
    have hnil : rates.filter (ratePair uid pid) = [] :=
      List.filter_eq_nil_iff.mpr (List.any_eq_false.mp hfalse)
    simp [List.filter_append, hnil, ratePair]

/-- Like rows of other users are untouched by the upsert, whatever rate it
writes. -/
theorem upsert_otherLikes (rates : List Rate) (uid : Nat) (pid : String)
    (rt : Int) :
    (upsertRate rates uid pid rt).filter (otherLikes uid pid) =
      rates.filter (otherLikes uid pid) := by
  unfold upsertRate
  by_cases hA : rates.any (ratePair uid pid) = true
  · rw [if_pos hA]
    clear hA
    induction rates with
    | nil => rfl
    | cons r rs ih =>
      by_cases hp : ratePair uid pid r = true
      · have hu : (r.user_id == uid) = true :=
          ((Bool.and_eq_true _ _).mp hp).1
        have h1 : otherLikes uid pid r = false := by
          simp [otherLikes, hu]
        have h2 : otherLikes uid pid ({ r with rate_type := rt } : Rate) =
            false := by
          simp [otherLikes, hu]
        simp only [List.map_cons, List.filter_cons, hp, if_true, h1, h2,
          Bool.false_eq_true, if_false, ih]
      · have hp0 : ratePair uid pid r = false := by
          simpa using hp
        simp only [List.map_cons, List.filter_cons, hp0, if_false,
          Bool.false_eq_true, ih]
  · rw [if_neg hA]
    have hnew : otherLikes uid pid (⟨uid, pid, rt⟩ : Rate) = false := by
      simp [otherLikes]
    simp [List.filter_append, hnew]

/-- When every pair row carries a dislike, the like rows of the post are
exactly the like rows of other users. -/
theorem likes_filter_eq_otherLikes (rates : List Rate) (uid : Nat)
    (pid : String)
    (h : ∀ r ∈ rates, ratePair uid pid r = true → r.rate_type = -1) :
    rates.filter (fun r => r.post_id == pid && r.rate_type == (1 : Int)) =
      rates.filter (otherLikes uid pid) := by
  refine List.filter_congr ?_
  intro x hx
  by_cases hu : x.user_id = uid
  · by_cases hpd : x.post_id = pid
    · have hrt : x.rate_type = -1 :=
        h x hx (by simp [ratePair, hu, hpd])
      simp [otherLikes, hu, hpd, hrt]
    · simp [otherLikes, hpd]
  · simp [otherLikes, hu]

/-- C6: for an actor `u` and a visible post, `like_post` followed by
`dislike_post` (1) returns the refreshed projection from each call,
(2) leaves exactly one reaction row for the (actor, post) pair, carrying
the dislike, and (3) yields a likesCount equal to the number of like rows
of other users — the overwritten like is not counted.  The unique
constraint is assumed to hold initially (at most one pair row). -/
theorem c6_like_then_dislike (db : DB) (u : DBUser) (pid : String)
    (post : DBPost) (owner : DBUser)
    (hpost : findPost db pid = some post)
    (howner : findUserById db post.owner_id = some owner)
    (hvis : owner.isPublic = true ∨ owner.id = u.id ∨
      hasEdge db owner.id u.id = true)
    (hpairs : (db.rates.filter (ratePair u.id pid)).length ≤ 1) :
    (like_post db u pid).1 =
      Except.ok (projectPost (like_post db u pid).2 post) ∧
    (dislike_post (like_post db u pid).2 u pid).1 =
      Except.ok (projectPost (dislike_post (like_post db u pid).2 u pid).2
        post) ∧
    ((dislike_post (like_post db u pid).2 u pid).2.rates.filter
      (ratePair u.id pid)) = [(⟨u.id, pid, -1⟩ : Rate)] ∧
    countRate (dislike_post (like_post db u pid).2 u pid).2.rates pid 1 =
      (db.rates.filter (otherLikes u.id pid)).length := by
  have hcond : (!owner.isPublic && !(owner.id == u.id) &&
      !hasEdge db owner.id u.id) = false := by
    rcases hvis with h | h | h <;> simp [h]
  have hlike : like_post db u pid =
      (Except.ok (projectPost
          { db with rates := upsertRate db.rates u.id pid 1 } post),
        { db with rates := upsertRate db.rates u.id pid 1 }) := by
    simp only [like_post, set_reaction, hpost, howner, hcond,
      Bool.false_eq_true, if_false]
  have hpost1 : findPost { db with rates := upsertRate db.rates u.id pid 1 }
      pid = some post := hpost
  have howner1 : findUserById
      { db with rates := upsertRate db.rates u.id pid 1 } post.owner_id =
      some owner := howner
  have hcond1 : (!owner.isPublic && !(owner.id == u.id) &&
      !hasEdge { db with rates := upsertRate db.rates u.id pid 1 }
        owner.id u.id) = false := hcond
  have hdis : dislike_post { db with rates := upsertRate db.rates u.id pid 1 }
      u pid =
      (Except.ok (projectPost
          { db with rates :=
              upsertRate (upsertRate db.rates u.id pid 1) u.id pid (-1) }
          post),
        { db with rates :=
            upsertRate (upsertRate db.rates u.id pid 1) u.id pid (-1) }) := by
    simp only [dislike_post, set_reaction, hpost1, howner1, hcond1,
      Bool.false_eq_true, if_false]
  have hfinal : dislike_post (like_post db u pid).2 u pid =
      (Except.ok (projectPost
          { db with rates :=
              upsertRate (upsertRate db.rates u.id pid 1) u.id pid (-1) }
          post),
        { db with rates :=
            upsertRate (upsertRate db.rates u.id pid 1) u.id pid (-1) }) := by
    rw [hlike]
    exact hdis
  have hpairs1 : ((upsertRate db.rates u.id pid 1).filter
      (ratePair u.id pid)).length ≤ 1 := by
    rw [upsert_filter_pair db.rates u.id pid 1 hpairs]
    simp
  have h3 : ((dislike_post (like_post db u pid).2 u pid).2.rates.filter
      (ratePair u.id pid)) = [(⟨u.id, pid, -1⟩ : Rate)] := by
    rw [hfinal]
    exact upsert_filter_pair _ u.id pid (-1) hpairs1
  refine ⟨?_, ?_, h3, ?_⟩
  · rw [hlike]
  · rw [hfinal]
  · have hall : ∀ r ∈ (dislike_post (like_post db u pid).2 u pid).2.rates,
        ratePair u.id pid r = true → r.rate_type = -1 := by
      intro r hr hp
      have hmem : r ∈ (dislike_post (like_post db u pid).2 u pid).2.rates.filter
          (ratePair u.id pid) := List.mem_filter.mpr ⟨hr, hp⟩
      rw [h3] at hmem
      rw [List.mem_singleton.mp hmem]
    unfold countRate
    rw [likes_filter_eq_otherLikes _ u.id pid hall, hfinal]
    show ((upsertRate (upsertRate db.rates u.id pid 1) u.id pid
        (-1)).filter (otherLikes u.id pid)).length = _
    rw [upsert_otherLikes, upsert_otherLikes]

/-- C6 witness: `bob` likes then dislikes the visible post `"p1"` of
`alice` in a state where `alice` has already liked her own post; one
dislike row for `bob` remains and the likesCount still counts only the
like of `alice`. -/
theorem c6_like_then_dislike_witness :
    (like_post dbReact bob "p1").1 =
      Except.ok (projectPost (like_post dbReact bob "p1").2 alicePost) ∧
    (dislike_post (like_post dbReact bob "p1").2 bob "p1").1 =
      Except.ok (projectPost
        (dislike_post (like_post dbReact bob "p1").2 bob "p1").2 alicePost) ∧
    ((dislike_post (like_post dbReact bob "p1").2 bob "p1").2.rates.filter
      (ratePair bob.id "p1")) = [(⟨bob.id, "p1", -1⟩ : Rate)] ∧
    countRate (dislike_post (like_post dbReact bob "p1").2 bob
        "p1").2.rates "p1" 1 =
      (dbReact.rates.filter (otherLikes bob.id "p1")).length :=
  c6_like_then_dislike dbReact bob "p1" alicePost alice (by decide)
    (by decide) (Or.inl (by decide)) (by decide)

end Pulse
